import Mathlib

/-!
Shallow embedding of `server/routes/user-analytics.js`: six admin analytics
endpoints that aggregate rows of the `users`, `generations`, `login_logs`
and `templates` tables.  Timestamps are modelled as natural numbers and
`DATE(ts)` as day truncation; SQL WHERE-clause fragments are modelled as the
exact strings the handlers concatenate, so that a fragment lacking the
`WHERE` keyword (two handlers build such a fragment when both date bounds
are absent) is rejected by the executor model just as the database rejects
the malformed query, which the route catches and turns into the fixed 500
message.  Chinese message strings are the literals from the source.
-/

namespace UserAnalytics

/-- A row of the `users` table (the columns the routes read). -/
structure UserRow where
  id : Nat
  username : String
  email : String
  created_at : Nat
  last_login_at : Option Nat
  is_active : Bool
  is_admin : Bool
  is_vip : Bool
  vip_expiry : Option Nat
  free_previews : Nat
  balance : Int
  subscription_type : Option String
deriving DecidableEq, Repr

/-- A row of the `generations` table. -/
structure GenerationRow where
  id : Nat
  user_id : Nat
  template_id : Option Nat
  generation_type : String
  is_paid : Bool
  status : String
  created_at : Nat
  processing_time : Option Nat
  payment_amount : Option Int
deriving DecidableEq, Repr

/-- A row of the `login_logs` table (the online-duration query reads a
`username` column straight off this table). -/
structure LoginLogRow where
  id : Nat
  user_id : Nat
  username : String
  login_time : Nat
  logout_time : Option Nat
  session_duration : Option Nat
  login_success : Bool
  ip_address : String
  user_agent : String
deriving DecidableEq, Repr

/-- A row of the `templates` table. -/
structure TemplateRow where
  id : Nat
  name : String
deriving DecidableEq, Repr

/-- The database state the router reads. -/
structure DB where
  users : List UserRow
  generations : List GenerationRow
  login_logs : List LoginLogRow
  templates : List TemplateRow
deriving DecidableEq, Repr

/-- A handler outcome: a JSON body, or the generic 500 answer the catch
block produces. -/
inductive HttpResult (β : Type) where
  | ok (body : β)
  | serverError (message : String)
deriving DecidableEq, Repr

/-- Seconds in a day. -/
def secondsPerDay : Nat := 86400

/-- Models SQL `DATE(expr)` on a timestamp. -/
def dateOf (t : Nat) : Nat := t / secondsPerDay

/-- The optional `>= :dateFrom` / `<= :dateTo` bounds every handler applies
to a timestamp column. -/
def dateMatch (dateFrom dateTo : Option Nat) (t : Nat) : Bool :=
  (match dateFrom with | none => true | some d => decide (d ≤ t)) &&
  (match dateTo with | none => true | some d => decide (t ≤ d))

/-- `leadsWith p l` : the char list `p` occurs at the head of `l`. -/
def leadsWith : List Char → List Char → Bool
  | [], _ => true
  | _ :: _, [] => false
  | a :: p, b :: l => a == b && leadsWith p l

/-- `occursIn n h` : the char list `n` occurs contiguously in `h`. -/
def occursIn (n : List Char) : List Char → Bool
  | [] => n.isEmpty
  | c :: h => leadsWith n (c :: h) || occursIn n h

/-- `anySuffix f h` : `f` accepts some suffix of `h` (including `h` itself
and the empty suffix). -/
def anySuffix (f : List Char → Bool) : List Char → Bool
  | [] => f []
  | c :: hs => f (c :: hs) || anySuffix f hs

/-- SQL LIKE pattern matching over char lists: `%` matches any sequence,
`_` matches any single character, and the default escape character `\`
makes the following pattern character literal.  A pattern ending in a
dangling `\` matches nothing here (the database raises an error for it;
the route never builds such a pattern, because the interpolated search
string is followed by a closing `%` that a trailing `\` escapes). -/
def likeMatch : List Char → List Char → Bool
  | [], h => h.isEmpty
  | p :: ps, h =>
    if p == '%' then anySuffix (likeMatch ps) h
    else if p == '\\' then
      match ps, h with
      | [], _ => false
      | _ :: _, [] => false
      | q :: ps2, c :: hs => (q == c) && likeMatch ps2 hs
    else
      match h with
      | [] => false
      | c :: hs => (p == '_' || p == c) && likeMatch ps hs

/-- Models `field ILIKE :search` with `:search` bound to the pattern
`%s%` built from the raw search string `s`: LIKE matching of the pattern
with ASCII case folding of both sides (ILIKE is case-insensitive LIKE,
and `%`, `_`, `\\` are unaffected by case folding). -/
def ilikeContains (s field : String) : Bool :=
  likeMatch ('%' :: (s.data.map Char.toLower ++ ['%'])) (field.data.map Char.toLower)

/-- A character the LIKE pattern treats literally: not the `%` or `_`
wildcard and not the `\\` escape. -/
def likeLiteralChar (c : Char) : Bool := !(c == '%' || c == '_' || c == '\\')

/-- A search string free of LIKE wildcard and escape characters: for such
a string the pattern `%s%` means plain containment. -/
def likeLiteral (s : String) : Bool := s.data.all likeLiteralChar

/-- The claim-side reading of an ILIKE search hit: the search string is a
case-insensitive substring of the field.  `ilikeContains` is the matching
the handler performs; the two agree exactly on wildcard-free search
strings (`ilikeContains_eq_ciContains`). -/
def ciContains (s field : String) : Bool :=
  occursIn (s.data.map Char.toLower) (field.data.map Char.toLower)

/-- A fragment standing between `FROM table` and the rest of a statement
parses only when it is blank or leads (after spaces) with `WHERE`; SQL does
not accept a dangling `AND`. -/
def wellFormedWhere (c : String) : Bool :=
  (c.data.dropWhile (· == ' ')).isEmpty ||
    leadsWith "WHERE".data (c.data.dropWhile (· == ' '))

/-- A read-only statement: its text leads with `SELECT`. -/
def isSelectSql (s : String) : Bool := leadsWith "SELECT".data s.data

variable {α : Type*}

/-- Insert into a list kept in descending key order. -/
def insertDesc (key : α → Nat) (a : α) : List α → List α
  | [] => [a]
  | b :: l => if key b < key a then a :: b :: l else b :: insertDesc key a l

/-- Models `ORDER BY key DESC` (a stable insertion sort; SQL leaves the
order of equal keys unspecified and this is one compliant order). -/
def sortDesc (key : α → Nat) : List α → List α
  | [] => []
  | a :: l => insertDesc key a (sortDesc key l)

/-- Models JavaScript `Math.ceil(total / limit)` on a positive integer
`limit` (the value the handler stores in `pagination.pages`). -/
def mathCeilDiv (total limit : Nat) : Nat := (total + limit - 1) / limit

/-! ### GET /users : definitions -/

/-- The `dateFilter` string the GET /users handler builds. -/
def usersDateFilter (dateFrom dateTo : Option Nat) : String :=
  (if dateFrom.isSome then " AND u.created_at >= :dateFrom" else "") ++
  (if dateTo.isSome then " AND u.created_at <= :dateTo" else "")

/-- The main GET /users query text (whitespace normalised to single
spaces). -/
def usersQueryText (dateFrom dateTo : Option Nat) : String :=
  "SELECT u.id, u.username, u.email, u.created_at as registration_time, u.last_login_at, u.is_active, u.is_admin, u.is_vip, u.vip_expiry, u.free_previews, u.balance, COUNT(DISTINCT g.id) FILTER (WHERE g.generation_type = \x27preview\x27) as preview_count, COUNT(DISTINCT g.id) FILTER (WHERE g.generation_type = \x27paid\x27 OR g.is_paid = true) as download_count, COUNT(DISTINCT g.id) as total_generations, COUNT(DISTINCT ll.id) as login_count, MAX(ll.login_time) as last_login_time FROM users u LEFT JOIN generations g ON u.id = g.user_id LEFT JOIN login_logs ll ON u.id = ll.user_id AND ll.login_success = true WHERE (u.username ILIKE :search OR u.email ILIKE :search)" ++
  (usersDateFilter dateFrom dateTo ++
   " GROUP BY u.id, u.username, u.email, u.created_at, u.last_login_at, u.is_active, u.is_admin, u.is_vip, u.vip_expiry, u.free_previews, u.balance ORDER BY u.created_at DESC LIMIT :limit OFFSET :offset")

/-- The GET /users count query text. -/
def usersCountQueryText (dateFrom dateTo : Option Nat) : String :=
  "SELECT COUNT(DISTINCT u.id) as total FROM users u WHERE (u.username ILIKE :search OR u.email ILIKE :search)" ++
  usersDateFilter dateFrom dateTo

/-- The row filter of the GET /users queries: `(u.username ILIKE :search
OR u.email ILIKE :search)` plus the optional date bounds on
`u.created_at`. -/
def userMatchesRow (search : String) (dateFrom dateTo : Option Nat) (u : UserRow) : Bool :=
  (ilikeContains search u.username || ilikeContains search u.email) &&
    dateMatch dateFrom dateTo u.created_at

/-- The users selected by both GET /users queries before grouping. -/
def usersFiltered (db : DB) (search : String) (dateFrom dateTo : Option Nat) : List UserRow :=
  db.users.filter (userMatchesRow search dateFrom dateTo)

/-- `COUNT(DISTINCT u.id)` of the count query of GET /users. -/
def usersTotal (db : DB) (search : String) (dateFrom dateTo : Option Nat) : Nat :=
  (((usersFiltered db search dateFrom dateTo).map UserRow.id).dedup).length

/-- `g.generation_type = \x27preview\x27`. -/
def isPreviewGen (g : GenerationRow) : Bool := g.generation_type == "preview"

/-- `g.generation_type = \x27paid\x27 OR g.is_paid = true`. -/
def isDownloadGen (g : GenerationRow) : Bool := g.generation_type == "paid" || g.is_paid

/-- `COUNT(DISTINCT g.id) FILTER (WHERE ...preview...)` for one user of
the join. -/
def previewCount (db : DB) (uid : Nat) : Nat :=
  (((db.generations.filter fun g => g.user_id == uid && isPreviewGen g).map
    GenerationRow.id).dedup).length

/-- `COUNT(DISTINCT g.id) FILTER (WHERE ...paid...)` for one user of the
join. -/
def downloadCount (db : DB) (uid : Nat) : Nat :=
  (((db.generations.filter fun g => g.user_id == uid && isDownloadGen g).map
    GenerationRow.id).dedup).length

/-- `COUNT(DISTINCT g.id)` for one user of the join. -/
def totalGenerations (db : DB) (uid : Nat) : Nat :=
  (((db.generations.filter fun g => g.user_id == uid).map GenerationRow.id).dedup).length

/-- The login logs joined to a user: `ll.user_id = u.id AND
ll.login_success = true` (also the source of the loginRecords list of the
detail endpoint). -/
def userLoginLogs (db : DB) (uid : Nat) : List LoginLogRow :=
  db.login_logs.filter fun r => r.user_id == uid && r.login_success

/-- `COUNT(DISTINCT ll.id)` for one user of the join. -/
def loginCount (db : DB) (uid : Nat) : Nat :=
  (((userLoginLogs db uid).map LoginLogRow.id).dedup).length

/-- `MAX(ll.login_time)` for one user of the join. -/
def lastLoginTime (db : DB) (uid : Nat) : Option Nat :=
  ((userLoginLogs db uid).map LoginLogRow.login_time).max?

/-- One element of the `users` array of the GET /users response. -/
structure UserListRow where
  id : Nat
  username : String
  email : String
  registration_time : Nat
  last_login_at : Option Nat
  is_active : Bool
  is_admin : Bool
  is_vip : Bool
  vip_expiry : Option Nat
  free_previews : Nat
  balance : Int
  preview_count : Nat
  download_count : Nat
  total_generations : Nat
  login_count : Nat
  last_login_time : Option Nat
deriving DecidableEq, Repr

/-- The grouped row GET /users produces for one user. -/
def userToListRow (db : DB) (u : UserRow) : UserListRow :=
  { id := u.id
    username := u.username
    email := u.email
    registration_time := u.created_at
    last_login_at := u.last_login_at
    is_active := u.is_active
    is_admin := u.is_admin
    is_vip := u.is_vip
    vip_expiry := u.vip_expiry
    free_previews := u.free_previews
    balance := u.balance
    preview_count := previewCount db u.id
    download_count := downloadCount db u.id
    total_generations := totalGenerations db u.id
    login_count := loginCount db u.id
    last_login_time := lastLoginTime db u.id }

/-- The `pagination` object of the GET /users response. -/
structure Pagination where
  total : Nat
  page : Nat
  limit : Nat
  pages : Nat
deriving DecidableEq, Repr

/-- The GET /users response body. -/
structure UsersResponse where
  users : List UserListRow
  pagination : Pagination
deriving DecidableEq, Repr

/-- GET /users: filter by search and optional date bounds, group per user,
`ORDER BY u.created_at DESC`, then `LIMIT :limit OFFSET :offset` with
`offset = (page - 1) * limit`. -/
def usersHandler (db : DB) (page limit : Nat) (search : String)
    (dateFrom dateTo : Option Nat) : UsersResponse :=
  let rows := sortDesc UserRow.created_at (usersFiltered db search dateFrom dateTo)
  let total := usersTotal db search dateFrom dateTo
  { users := ((rows.drop ((page - 1) * limit)).take limit).map (userToListRow db)
    pagination :=
      { total := total, page := page, limit := limit, pages := mathCeilDiv total limit } }

/-! ### GET /users/:userId : definitions -/

/-- The userInfo query text of GET /users/:userId. -/
def userInfoQueryText : String :=
  "SELECT u.id, u.username, u.email, u.created_at as registration_time, u.last_login_at, u.is_active, u.is_admin, u.is_vip, u.vip_expiry, u.free_previews, u.balance, u.subscription_type, COUNT(DISTINCT g.id) FILTER (WHERE g.generation_type = \x27preview\x27) as preview_count, COUNT(DISTINCT g.id) FILTER (WHERE g.generation_type = \x27paid\x27 OR g.is_paid = true) as download_count, COUNT(DISTINCT ll.id) as total_logins FROM users u LEFT JOIN generations g ON u.id = g.user_id LEFT JOIN login_logs ll ON u.id = ll.user_id AND ll.login_success = true WHERE u.id = :userId GROUP BY u.id"

/-- The previewRecords query text of GET /users/:userId. -/
def previewRecordsQueryText : String :=
  "SELECT g.id, g.created_at, g.status, g.processing_time, t.name as template_name, t.id as template_id FROM generations g LEFT JOIN templates t ON g.template_id = t.id WHERE g.user_id = :userId AND g.generation_type = \x27preview\x27 ORDER BY g.created_at DESC LIMIT 20"

/-- The downloadRecords query text of GET /users/:userId. -/
def downloadRecordsQueryText : String :=
  "SELECT g.id, g.created_at, g.status, g.payment_amount, g.processing_time, t.name as template_name, t.id as template_id FROM generations g LEFT JOIN templates t ON g.template_id = t.id WHERE g.user_id = :userId AND (g.generation_type = \x27paid\x27 OR g.is_paid = true) ORDER BY g.created_at DESC LIMIT 20"

/-- The loginRecords query text of GET /users/:userId. -/
def loginRecordsQueryText : String :=
  "SELECT login_time, logout_time, session_duration, ip_address, user_agent FROM login_logs WHERE user_id = :userId AND login_success = true ORDER BY login_time DESC LIMIT 30"

/-- The `userInfo` row of GET /users/:userId. -/
structure UserInfoRow where
  id : Nat
  username : String
  email : String
  registration_time : Nat
  last_login_at : Option Nat
  is_active : Bool
  is_admin : Bool
  is_vip : Bool
  vip_expiry : Option Nat
  free_previews : Nat
  balance : Int
  subscription_type : Option String
  preview_count : Nat
  download_count : Nat
  total_logins : Nat
deriving DecidableEq, Repr

/-- The grouped userInfo row for one user. -/
def userToInfoRow (db : DB) (u : UserRow) : UserInfoRow :=
  { id := u.id
    username := u.username
    email := u.email
    registration_time := u.created_at
    last_login_at := u.last_login_at
    is_active := u.is_active
    is_admin := u.is_admin
    is_vip := u.is_vip
    vip_expiry := u.vip_expiry
    free_previews := u.free_previews
    balance := u.balance
    subscription_type := u.subscription_type
    preview_count := previewCount db u.id
    download_count := downloadCount db u.id
    total_logins := loginCount db u.id }

/-- `LEFT JOIN templates t ON g.template_id = t.id` (template ids are the
primary key of `templates`, so at most one row joins). -/
def templateFor (db : DB) (g : GenerationRow) : Option TemplateRow :=
  g.template_id.bind fun i => db.templates.find? fun t => t.id == i

/-- One element of the previewRecords array. -/
structure PreviewRecord where
  id : Nat
  created_at : Nat
  status : String
  processing_time : Option Nat
  template_name : Option String
  template_id : Option Nat
deriving DecidableEq, Repr

/-- Shape one generation row into a previewRecords element. -/
def previewRecordOf (db : DB) (g : GenerationRow) : PreviewRecord :=
  { id := g.id
    created_at := g.created_at
    status := g.status
    processing_time := g.processing_time
    template_name := (templateFor db g).map TemplateRow.name
    template_id := (templateFor db g).map TemplateRow.id }

/-- One element of the downloadRecords array. -/
structure DownloadRecord where
  id : Nat
  created_at : Nat
  status : String
  payment_amount : Option Int
  processing_time : Option Nat
  template_name : Option String
  template_id : Option Nat
deriving DecidableEq, Repr

/-- Shape one generation row into a downloadRecords element. -/
def downloadRecordOf (db : DB) (g : GenerationRow) : DownloadRecord :=
  { id := g.id
    created_at := g.created_at
    status := g.status
    payment_amount := g.payment_amount
    processing_time := g.processing_time
    template_name := (templateFor db g).map TemplateRow.name
    template_id := (templateFor db g).map TemplateRow.id }

/-- One element of the loginRecords array. -/
structure LoginRecord where
  login_time : Nat
  logout_time : Option Nat
  session_duration : Option Nat
  ip_address : String
  user_agent : String
deriving DecidableEq, Repr

/-- Shape one login-log row into a loginRecords element. -/
def loginRecordOf (r : LoginLogRow) : LoginRecord :=
  { login_time := r.login_time
    logout_time := r.logout_time
    session_duration := r.session_duration
    ip_address := r.ip_address
    user_agent := r.user_agent }

/-- `g.user_id = :userId AND g.generation_type = \x27preview\x27`. -/
def userPreviewGens (db : DB) (userId : Nat) : List GenerationRow :=
  db.generations.filter fun g => g.user_id == userId && isPreviewGen g

/-- `g.user_id = :userId AND (...paid...)`. -/
def userDownloadGens (db : DB) (userId : Nat) : List GenerationRow :=
  db.generations.filter fun g => g.user_id == userId && isDownloadGen g

/-- The previewRecords array: most recent first, `LIMIT 20`. -/
def previewRecords (db : DB) (userId : Nat) : List PreviewRecord :=
  ((sortDesc GenerationRow.created_at (userPreviewGens db userId)).take 20).map
    (previewRecordOf db)

/-- The downloadRecords array: most recent first, `LIMIT 20`. -/
def downloadRecords (db : DB) (userId : Nat) : List DownloadRecord :=
  ((sortDesc GenerationRow.created_at (userDownloadGens db userId)).take 20).map
    (downloadRecordOf db)

/-- The loginRecords array: successful logins only, most recent first,
`LIMIT 30`. -/
def loginRecords (db : DB) (userId : Nat) : List LoginRecord :=
  ((sortDesc LoginLogRow.login_time (userLoginLogs db userId)).take 30).map loginRecordOf

/-- The GET /users/:userId response. -/
inductive UserDetailResult where
  | notFound (message : String)
  | ok (userInfo : UserInfoRow) (previewRecords : List PreviewRecord)
      (downloadRecords : List DownloadRecord) (loginRecords : List LoginRecord)
deriving DecidableEq, Repr

/-- GET /users/:userId: run the userInfo query; when it yields no row,
respond 404 at once; otherwise fetch the three record lists. -/
def userDetailHandler (db : DB) (userId : Nat) : UserDetailResult :=
  match db.users.find? (fun u => u.id == userId) with
  | none => .notFound "用户不存在"
  | some u =>
      .ok (userToInfoRow db u) (previewRecords db userId)
        (downloadRecords db userId) (loginRecords db userId)

/-- The SQL texts GET /users/:userId actually sends, in order: the three
record queries run only when the userInfo query returned a row. -/
def userDetailQueries (db : DB) (userId : Nat) : List String :=
  match db.users.find? (fun u => u.id == userId) with
  | none => [userInfoQueryText]
  | some _ => [userInfoQueryText, previewRecordsQueryText, downloadRecordsQueryText,
      loginRecordsQueryText]

/-! ### GET /registrations : definitions -/

/-- The `dateFilter` string built over `created_at` (GET /registrations
builds it this way, and GET /overview builds its `userDateFilter` and
`genDateFilter` identically). -/
def createdAtRangeFilter (dateFrom dateTo : Option Nat) : String :=
  (if dateFrom.isSome then " WHERE created_at >= :dateFrom" else "") ++
  (if dateTo.isSome then
    (if dateFrom.isSome then " AND" else " WHERE") ++ " created_at <= :dateTo"
   else "")

/-- The GET /registrations query text. -/
def registrationsQueryText (dateFrom dateTo : Option Nat) : String :=
  "SELECT DATE(created_at) as date, COUNT(*) as count FROM users" ++
  (createdAtRangeFilter dateFrom dateTo ++
   " GROUP BY DATE(created_at) ORDER BY date DESC")

/-- One element of the `registrations` array. -/
structure RegistrationRow where
  date : Nat
  count : Nat
deriving DecidableEq, Repr

/-- The users passing the optional date bounds of GET /registrations (also
the `total_users` source of GET /overview). -/
def usersInRange (db : DB) (dateFrom dateTo : Option Nat) : List UserRow :=
  db.users.filter fun u => dateMatch dateFrom dateTo u.created_at

/-- GET /registrations: per-day user counts grouped by `DATE(created_at)`,
ordered date descending. -/
def registrationsRows (db : DB) (dateFrom dateTo : Option Nat) : List RegistrationRow :=
  (sortDesc (fun d => d)
    (((usersInRange db dateFrom dateTo).map fun u => dateOf u.created_at).dedup)).map
    fun d =>
      { date := d
        count := ((usersInRange db dateFrom dateTo).filter
          fun u => dateOf u.created_at == d).length }

/-! ### GET /logins : definitions -/

/-- The `dateFilter` string GET /logins builds: empty when both bounds are
absent, otherwise a WHERE clause over `login_time`. -/
def loginsDateFilter (dateFrom dateTo : Option Nat) : String :=
  (if dateFrom.isSome then " WHERE login_time >= :dateFrom" else "") ++
  (if dateTo.isSome then
    (if dateFrom.isSome then " AND" else " WHERE") ++ " login_time <= :dateTo"
   else "")

/-- What stands between `FROM login_logs` and `GROUP BY` in the GET
/logins query: the interpolated date filter followed by the hard-coded
`AND login_success = true`. -/
def loginsWhereFragment (dateFrom dateTo : Option Nat) : String :=
  loginsDateFilter dateFrom dateTo ++ " AND login_success = true"

/-- The GET /logins query text. -/
def loginsQueryText (dateFrom dateTo : Option Nat) : String :=
  "SELECT DATE(login_time) as date, COUNT(DISTINCT user_id) as unique_users, COUNT(*) as total_logins FROM login_logs" ++
  (loginsWhereFragment dateFrom dateTo ++
   " GROUP BY DATE(login_time) ORDER BY date DESC")

/-- One element of the `logins` array. -/
structure LoginStatRow where
  date : Nat
  unique_users : Nat
  total_logins : Nat
deriving DecidableEq, Repr

/-- The login logs matched by the GET /logins filter (also the source of
`active_users` and `total_logins` of GET /overview): inside the date
bounds and successful. -/
def loginsFiltered (db : DB) (dateFrom dateTo : Option Nat) : List LoginLogRow :=
  db.login_logs.filter fun r => dateMatch dateFrom dateTo r.login_time && r.login_success

/-- The GET /logins result rows: grouped by `DATE(login_time)`, ordered
date descending. -/
def loginsRows (db : DB) (dateFrom dateTo : Option Nat) : List LoginStatRow :=
  (sortDesc (fun d => d)
    (((loginsFiltered db dateFrom dateTo).map fun r => dateOf r.login_time).dedup)).map
    fun d =>
      { date := d
        unique_users := ((((loginsFiltered db dateFrom dateTo).filter
          fun r => dateOf r.login_time == d).map LoginLogRow.user_id).dedup).length
        total_logins := ((loginsFiltered db dateFrom dateTo).filter
          fun r => dateOf r.login_time == d).length }

/-- GET /logins: the query runs only when its assembled text is acceptable
SQL; the query error of the malformed text is caught and answered with the
fixed 500 message. -/
def loginsHandler (db : DB) (dateFrom dateTo : Option Nat) : HttpResult (List LoginStatRow) :=
  if wellFormedWhere (loginsWhereFragment dateFrom dateTo)
  then .ok (loginsRows db dateFrom dateTo)
  else .serverError "服务器内部错误"

/-! ### GET /online-duration : definitions -/

/-- The WHERE clause GET /online-duration builds by joining its filter
list with ` AND `: `session_duration IS NOT NULL` is always present, so
the clause is always well formed. -/
def onlineDurationWhereClause (userId dateFrom dateTo : Option Nat) : String :=
  "WHERE session_duration IS NOT NULL" ++
  (if userId.isSome then " AND user_id = :userId" else "") ++
  (if dateFrom.isSome then " AND login_time >= :dateFrom" else "") ++
  (if dateTo.isSome then " AND login_time <= :dateTo" else "")

/-- The GET /online-duration query text. -/
def onlineDurationQueryText (userId dateFrom dateTo : Option Nat) : String :=
  "SELECT username, DATE(login_time) as date, SUM(session_duration) as total_seconds, COUNT(*) as session_count FROM login_logs " ++
  (onlineDurationWhereClause userId dateFrom dateTo ++
   " GROUP BY username, DATE(login_time) ORDER BY date DESC, total_seconds DESC")

/-- The row filter of GET /online-duration: `session_duration IS NOT
NULL` plus the optional user and date bounds — no login_success
condition. -/
def onlineDurationMatches (userId dateFrom dateTo : Option Nat) (r : LoginLogRow) : Bool :=
  r.session_duration.isSome &&
  (match userId with | none => true | some i => r.user_id == i) &&
  dateMatch dateFrom dateTo r.login_time

/-- The login logs feeding the GET /online-duration aggregates. -/
def onlineDurationFiltered (db : DB) (userId dateFrom dateTo : Option Nat) : List LoginLogRow :=
  db.login_logs.filter (onlineDurationMatches userId dateFrom dateTo)

/-- One element of the `onlineDuration` array. -/
structure OnlineDurationRow where
  username : String
  date : Nat
  total_seconds : Nat
  session_count : Nat
deriving DecidableEq, Repr

/-- GET /online-duration: group the filtered logs by `(username,
DATE(login_time))`, summing durations; `ORDER BY date DESC, total_seconds
DESC` is modelled by two stable sort passes. -/
def onlineDurationRows (db : DB) (userId dateFrom dateTo : Option Nat) : List OnlineDurationRow :=
  let src := onlineDurationFiltered db userId dateFrom dateTo
  let keys := (src.map fun r => (r.username, dateOf r.login_time)).dedup
  sortDesc OnlineDurationRow.date
    (sortDesc OnlineDurationRow.total_seconds
      (keys.map fun k =>
        { username := k.1
          date := k.2
          total_seconds := ((src.filter fun r => (r.username, dateOf r.login_time) == k).map
            fun r => r.session_duration.getD 0).sum
          session_count := (src.filter fun r => (r.username, dateOf r.login_time) == k).length }))

/-! ### GET /overview : definitions -/

/-- The `loginDateFilter` string GET /overview builds. -/
def overviewLoginTimeFilter (dateFrom dateTo : Option Nat) : String :=
  (if dateFrom.isSome then " WHERE login_time >= :dateFrom" else "") ++
  (if dateTo.isSome then
    (if dateFrom.isSome then " AND" else " WHERE") ++ " login_time <= :dateTo"
   else "")

/-- What follows `FROM login_logs` in the active_users and total_logins
queries of GET /overview: the interpolated login date filter followed by
the hard-coded `AND login_success = true`. -/
def overviewSuccessFragment (dateFrom dateTo : Option Nat) : String :=
  overviewLoginTimeFilter dateFrom dateTo ++ " AND login_success = true"

/-- What follows `FROM generations` in the total_previews query: the
interpolated `genDateFilter`, then `AND` when that filter is non-empty
and `WHERE` otherwise (the JS truthiness test on the filter string). -/
def overviewPreviewsFragment (dateFrom dateTo : Option Nat) : String :=
  createdAtRangeFilter dateFrom dateTo ++ " " ++
  (if dateFrom.isSome || dateTo.isSome then "AND" else "WHERE") ++
  " generation_type = \x27preview\x27"

/-- What follows `FROM generations` in the total_downloads query. -/
def overviewDownloadsFragment (dateFrom dateTo : Option Nat) : String :=
  createdAtRangeFilter dateFrom dateTo ++ " " ++
  (if dateFrom.isSome || dateTo.isSome then "AND" else "WHERE") ++
  " (generation_type = \x27paid\x27 OR is_paid = true)"

/-- The total_users query text of GET /overview. -/
def overviewUsersQueryText (dateFrom dateTo : Option Nat) : String :=
  "SELECT COUNT(*) as total_users FROM users" ++ createdAtRangeFilter dateFrom dateTo

/-- The active_users query text of GET /overview. -/
def overviewActiveUsersQueryText (dateFrom dateTo : Option Nat) : String :=
  "SELECT COUNT(DISTINCT user_id) as active_users FROM login_logs" ++
  overviewSuccessFragment dateFrom dateTo

/-- The total_previews query text of GET /overview. -/
def overviewPreviewsQueryText (dateFrom dateTo : Option Nat) : String :=
  "SELECT COUNT(*) as total_previews FROM generations" ++
  overviewPreviewsFragment dateFrom dateTo

/-- The total_downloads query text of GET /overview. -/
def overviewDownloadsQueryText (dateFrom dateTo : Option Nat) : String :=
  "SELECT COUNT(*) as total_downloads FROM generations" ++
  overviewDownloadsFragment dateFrom dateTo

/-- The total_logins query text of GET /overview. -/
def overviewLoginsQueryText (dateFrom dateTo : Option Nat) : String :=
  "SELECT COUNT(*) as total_logins FROM login_logs" ++
  overviewSuccessFragment dateFrom dateTo

/-- The generation rows whose `created_at` passes the optional date
bounds. -/
def gensInRange (db : DB) (dateFrom dateTo : Option Nat) : List GenerationRow :=
  db.generations.filter fun g => dateMatch dateFrom dateTo g.created_at

/-- The `overview` object of GET /overview. -/
structure Overview where
  total_users : Nat
  active_users : Nat
  total_previews : Nat
  total_downloads : Nat
  total_logins : Nat
deriving DecidableEq, Repr

/-- The overview GET /overview computes when all five queries succeed. -/
def overviewBody (db : DB) (dateFrom dateTo : Option Nat) : Overview :=
  { total_users := (usersInRange db dateFrom dateTo).length
    active_users := (((loginsFiltered db dateFrom dateTo).map LoginLogRow.user_id).dedup).length
    total_previews := ((gensInRange db dateFrom dateTo).filter isPreviewGen).length
    total_downloads := ((gensInRange db dateFrom dateTo).filter isDownloadGen).length
    total_logins := (loginsFiltered db dateFrom dateTo).length }

/-- GET /overview: the five count queries run in sequence; a malformed
one (the active_users and total_logins texts lack `WHERE` when both date
bounds are absent) throws, and the catch answers the fixed 500 message. -/
def overviewHandler (db : DB) (dateFrom dateTo : Option Nat) : HttpResult Overview :=
  if wellFormedWhere (createdAtRangeFilter dateFrom dateTo) &&
     wellFormedWhere (overviewSuccessFragment dateFrom dateTo) &&
     wellFormedWhere (overviewPreviewsFragment dateFrom dateTo) &&
     wellFormedWhere (overviewDownloadsFragment dateFrom dateTo)
  then .ok (overviewBody db dateFrom dateTo)
  else .serverError "服务器内部错误"

/-! ### All query texts of the router -/

/-- Every SQL text any of the six handlers can send, for one choice of
the optional parameters and of the looked-up user. -/
def routerQueryTexts (db : DB) (detailUserId : Nat)
    (userId dateFrom dateTo : Option Nat) : List String :=
  [usersQueryText dateFrom dateTo, usersCountQueryText dateFrom dateTo] ++
  userDetailQueries db detailUserId ++
  [registrationsQueryText dateFrom dateTo,
   loginsQueryText dateFrom dateTo,
   onlineDurationQueryText userId dateFrom dateTo,
   overviewUsersQueryText dateFrom dateTo,
   overviewActiveUsersQueryText dateFrom dateTo,
   overviewPreviewsQueryText dateFrom dateTo,
   overviewDownloadsQueryText dateFrom dateTo,
   overviewLoginsQueryText dateFrom dateTo]

/-! ### The claim-side reading of a search substring -/

/-- The specification reading of a search hit: the search string is an
exact (case-sensitive) substring of the username or of the email.  The
handler itself matches with `ILIKE`, that is `ilikeContains`; this
definition exists to compare the two. -/
def specSubstrMatch (s : String) (u : UserRow) : Bool :=
  occursIn s.data u.username.data || occursIn s.data u.email.data

/-! ### Concrete rows for witnesses and counterexamples -/

/-- A user whose username holds `abc` as an exact substring. -/
def cexUserA : UserRow :=
  { id := 1, username := "xabcx", email := "a@example.com", created_at := 100
    last_login_at := none, is_active := true, is_admin := false, is_vip := false
    vip_expiry := none, free_previews := 0, balance := 0, subscription_type := none }

/-- A user whose username matches `abc` only case-insensitively. -/
def cexUserB : UserRow :=
  { id := 2, username := "ABC", email := "b@example.com", created_at := 200
    last_login_at := none, is_active := true, is_admin := false, is_vip := false
    vip_expiry := none, free_previews := 0, balance := 0, subscription_type := none }

/-- Two users of which only `cexUserA` holds the exact substring `abc`. -/
def cexSearchDb : DB := ⟨[cexUserA, cexUserB], [], [], []⟩

/-- A database with the single user `cexUserA`. -/
def singleUserDb : DB := ⟨[cexUserA], [], [], []⟩

/-- A generation that is typed `preview` and at the same time marked
paid: both overview generation counts include it. -/
def cexGen : GenerationRow :=
  { id := 1, user_id := 1, template_id := none, generation_type := "preview"
    is_paid := true, status := "completed", created_at := 5
    processing_time := none, payment_amount := none }

/-- A database holding only `cexGen`. -/
def cexOverviewDb : DB := ⟨[], [cexGen], [], []⟩

/-- A generation that is a plain unpaid preview. -/
def witGen : GenerationRow :=
  { id := 1, user_id := 1, template_id := none, generation_type := "preview"
    is_paid := false, status := "completed", created_at := 5
    processing_time := none, payment_amount := none }

/-- A database holding only `witGen`. -/
def witOverviewDb : DB := ⟨[], [witGen], [], []⟩

/-- A failed login that nevertheless carries a session duration. -/
def failedLoginLog : LoginLogRow :=
  { id := 1, user_id := 1, username := "alice", login_time := 0
    logout_time := none, session_duration := some 60, login_success := false
    ip_address := "127.0.0.1", user_agent := "curl" }

/-- A database holding only `failedLoginLog`. -/
def failedLoginDb : DB := ⟨[], [], [failedLoginLog], []⟩

/-- The empty database. -/
def emptyDb : DB := ⟨[], [], [], []⟩

/-! ## Helper lemmas -/

theorem mem_insertDesc (key : α → Nat) (a x : α) (l : List α) :
    x ∈ insertDesc key a l ↔ x = a ∨ x ∈ l := by
  induction l with
  | nil => simp [insertDesc]
  | cons b l ih =>
    by_cases h : key b < key a <;> simp [insertDesc, h, ih] <;> tauto

theorem mem_sortDesc (key : α → Nat) (x : α) (l : List α) :
    x ∈ sortDesc key l ↔ x ∈ l := by
  induction l with
  | nil => simp [sortDesc]
  | cons a l ih => simp [sortDesc, mem_insertDesc, ih]

theorem insertDesc_perm (key : α → Nat) (a : α) (l : List α) :
    List.Perm (insertDesc key a l) (a :: l) := by
  induction l with
  | nil => exact List.Perm.refl _
  | cons b l ih =>
    by_cases h : key b < key a
    · simp [insertDesc, h]
    · rw [insertDesc, if_neg h]
      exact (List.Perm.cons b ih).trans (List.Perm.swap a b l)

theorem sortDesc_perm (key : α → Nat) (l : List α) : List.Perm (sortDesc key l) l := by
  induction l with
  | nil => exact List.Perm.refl _
  | cons a l ih =>
    exact (insertDesc_perm key a (sortDesc key l)).trans (List.Perm.cons a ih)

theorem sortDesc_singleton (key : α → Nat) (a : α) :
    sortDesc key [a] = [a] := rfl

theorem mathCeilDiv_eq_ceil (a b : Nat) (hb : 0 < b) :
    mathCeilDiv a b = ⌈(a : ℚ) / (b : ℚ)⌉₊ := by
  rcases Nat.eq_zero_or_pos a with ha | ha
  · subst ha
    have h0 : (b - 1) / b = 0 := Nat.div_eq_of_lt (by omega)
    simp [mathCeilDiv, h0]
  · have hbq : (0 : ℚ) < (b : ℚ) := by exact_mod_cast hb
    set n := (a + b - 1) / b with hn
    have hdm : b * n + (a + b - 1) % b = a + b - 1 := Nat.div_add_mod (a + b - 1) b
    have hmod : (a + b - 1) % b < b := Nat.mod_lt _ hb
    have hn1 : 1 ≤ n := by
      rw [hn, Nat.le_div_iff_mul_le hb]; omega
    have hupper : a ≤ n * b := by rw [Nat.mul_comm]; omega
    have hlower : (n - 1) * b < a := by
      have h1 : (n - 1) * b = n * b - b := by rw [Nat.sub_mul, Nat.one_mul]
      rw [h1, Nat.mul_comm n b]; omega
    have hmc : mathCeilDiv a b = n := rfl
    rw [hmc]
    symm
    rw [Nat.ceil_eq_iff (show n ≠ 0 by omega)]
    constructor
    · rw [lt_div_iff₀ hbq]
      exact_mod_cast hlower
    · rw [div_le_iff₀ hbq]
      exact_mod_cast hupper

theorem toNat_ofNat_small (n : Nat) (h : n < 55296) : (Char.ofNat n).toNat = n := by
  unfold Char.ofNat
  rw [dif_pos (Or.inl h)]
  rfl

theorem likeLiteralChar_toLower (c : Char) (h : likeLiteralChar c = true) :
    likeLiteralChar c.toLower = true := by
  unfold Char.toLower
  show likeLiteralChar
    (if c.toNat ≥ 65 ∧ c.toNat ≤ 90 then Char.ofNat (c.toNat + 32) else c) = true
  by_cases hc : c.toNat ≥ 65 ∧ c.toNat ≤ 90
  · rw [if_pos hc]
    have h1 : (Char.ofNat (c.toNat + 32)).toNat = c.toNat + 32 :=
      toNat_ofNat_small _ (by omega)
    have hne : ∀ d : Char, d.toNat < 97 → ((Char.ofNat (c.toNat + 32)) == d) = false := by
      intro d hd
      apply beq_false_of_ne
      intro he
      have h2 := congrArg Char.toNat he
      omega
    unfold likeLiteralChar
    rw [hne '%' (by decide), hne '_' (by decide), hne '\\' (by decide)]
    rfl
  · rw [if_neg hc]
    exact h

theorem likeLiteralChar_spec (a : Char) (h : likeLiteralChar a = true) :
    (a == '%') = false ∧ (a == '_') = false ∧ (a == '\\') = false := by
  unfold likeLiteralChar at h
  simp only [Bool.not_eq_true', Bool.or_eq_false_iff] at h
  exact ⟨h.1.1, h.1.2, h.2⟩

theorem leadsWith_nil (n : List Char) : leadsWith n [] = n.isEmpty := by
  cases n <;> rfl

theorem likeMatch_percent_cons (ps h : List Char) :
    likeMatch ('%' :: ps) h = anySuffix (likeMatch ps) h := by
  rw [likeMatch.eq_def]
  simp

theorem anySuffix_likeMatch_nil (h : List Char) : anySuffix (likeMatch []) h = true := by
  induction h with
  | nil => rfl
  | cons c hs ih =>
    rw [anySuffix, ih]
    simp [likeMatch]

theorem likeMatch_literal_percent (n : List Char) (hn : n.all likeLiteralChar = true)
    (h : List Char) : likeMatch (n ++ ['%']) h = leadsWith n h := by
  induction n generalizing h with
  | nil =>
    show likeMatch ['%'] h = leadsWith [] h
    rw [likeMatch_percent_cons, anySuffix_likeMatch_nil]
    rfl
  | cons a n ih =>
    rw [List.all_cons, Bool.and_eq_true] at hn
    obtain ⟨ha, hn2⟩ := hn
    obtain ⟨ha1, ha2, ha3⟩ := likeLiteralChar_spec a ha
    cases h with
    | nil =>
      rw [likeMatch.eq_def]
      simp [ha1, ha3, leadsWith]
    | cons c hs =>
      rw [likeMatch.eq_def]
      simp [ha1, ha2, ha3, leadsWith, ih hn2]

theorem anySuffix_literal (n : List Char) (hn : n.all likeLiteralChar = true)
    (h : List Char) : anySuffix (likeMatch (n ++ ['%'])) h = occursIn n h := by
  induction h with
  | nil =>
    show likeMatch (n ++ ['%']) [] = occursIn n []
    rw [likeMatch_literal_percent n hn, leadsWith_nil]
    rfl
  | cons c hs ih =>
    show (likeMatch (n ++ ['%']) (c :: hs) || anySuffix (likeMatch (n ++ ['%'])) hs)
      = occursIn n (c :: hs)
    rw [likeMatch_literal_percent n hn, ih]
    rfl

theorem ilikeContains_eq_ciContains (s field : String) (h : likeLiteral s = true) :
    ilikeContains s field = ciContains s field := by
  unfold likeLiteral at h
  have hn : (s.data.map Char.toLower).all likeLiteralChar = true := by
    rw [List.all_map]
    rw [List.all_eq_true] at h ⊢
    intro c hc
    exact likeLiteralChar_toLower c (h c hc)
  unfold ilikeContains ciContains
  rw [likeMatch_percent_cons]
  exact anySuffix_literal _ hn _

theorem leadsWith_append (p l m : List Char) (h : leadsWith p l = true) :
    leadsWith p (l ++ m) = true := by
  induction p generalizing l with
  | nil => rfl
  | cons a p ih =>
    cases l with
    | nil => simp [leadsWith] at h
    | cons b l =>
      simp only [leadsWith, Bool.and_eq_true] at h
      simp only [List.cons_append, leadsWith, Bool.and_eq_true]
      exact ⟨h.1, ih l h.2⟩

theorem isSelectSql_append (s t : String) (h : isSelectSql s = true) :
    isSelectSql (s ++ t) = true := by
  unfold isSelectSql at h ⊢
  rw [String.data_append]
  exact leadsWith_append _ _ _ h

/-! ## Claims -/

/-- C4: with numeric `page ≥ 1` and `limit ≥ 1`, GET /users returns at most
`limit` rows and `pages` is the ceiling of `total / limit`, `total` being
the number of (distinct) users matching the search and date filters. -/
theorem usersHandler_pagination (db : DB) (page limit : Nat) (search : String)
    (dateFrom dateTo : Option Nat) (hp : 1 ≤ page) (hl : 1 ≤ limit) :
    (usersHandler db page limit search dateFrom dateTo).users.length ≤ limit ∧
    (usersHandler db page limit search dateFrom dateTo).pagination.pages
      = ⌈(usersTotal db search dateFrom dateTo : ℚ) / (limit : ℚ)⌉₊ := by
  constructor
  · show (List.map _ (List.take limit _)).length ≤ limit
    rw [List.length_map, List.length_take]
    exact Nat.min_le_left _ _
  · exact mathCeilDiv_eq_ceil _ _ hl

theorem sum_group_lengths {β : Type*} [DecidableEq β] (f : α → β) (l : List α) :
    ((l.map f).dedup.map fun d => (l.filter fun a => f a == d).length).sum = l.length := by
  have base := List.sum_map_count_dedup_eq_length (l.map f)
  have hcongr : ∀ d ∈ (l.map f).dedup,
      (l.filter fun a => f a == d).length = (l.map f).count d := by
    intro d _
    rw [List.count_eq_countP, List.countP_map, List.countP_eq_length_filter]
    rfl
  rw [List.map_congr_left hcongr, base, List.length_map]

theorem usersHandler_pagination_witness :
    1 ≤ 1 ∧
    ((usersHandler emptyDb 1 1 "" none none).users.length ≤ 1 ∧
     (usersHandler emptyDb 1 1 "" none none).pagination.pages
       = ⌈(usersTotal emptyDb "" none none : ℚ) / ((1 : Nat) : ℚ)⌉₊) :=
  ⟨le_refl 1, usersHandler_pagination emptyDb 1 1 "" none none (le_refl 1) (le_refl 1)⟩

/-- C5: when no user row has the requested id, GET /users/:userId responds
404 carrying only the message, and only the userInfo query was issued: no
preview, download or login query runs and none of that data is returned. -/
theorem userDetail_missing_user (db : DB) (userId : Nat)
    (h : ∀ u ∈ db.users, u.id ≠ userId) :
    userDetailHandler db userId = .notFound "用户不存在" ∧
    userDetailQueries db userId = [userInfoQueryText] := by
  have hf : db.users.find? (fun u => u.id == userId) = none := by
    rw [List.find?_eq_none]
    intro u hu
    simp only [beq_iff_eq]
    exact h u hu
  unfold userDetailHandler userDetailQueries
  rw [hf]
  exact ⟨rfl, rfl⟩

theorem userDetail_missing_user_witness :
    (∀ u ∈ emptyDb.users, u.id ≠ 1) ∧
    (userDetailHandler emptyDb 1 = .notFound "用户不存在" ∧
     userDetailQueries emptyDb 1 = [userInfoQueryText]) :=
  ⟨by simp [emptyDb], userDetail_missing_user emptyDb 1 (by simp [emptyDb])⟩

/-- C6: every per-day count of GET /registrations is a non-negative
integer, and the counts over the emitted days sum to the number of users
whose created_at passes the date bounds. -/
theorem registrations_counts (db : DB) (dateFrom dateTo : Option Nat) :
    (∀ r ∈ registrationsRows db dateFrom dateTo, 0 ≤ r.count) ∧
    ((registrationsRows db dateFrom dateTo).map RegistrationRow.count).sum
      = (usersInRange db dateFrom dateTo).length := by
  refine ⟨fun r _ => Nat.zero_le _, ?_⟩
  unfold registrationsRows
  rw [List.map_map]
  rw [List.Perm.sum_eq (List.Perm.map _ (sortDesc_perm _ _))]
  exact sum_group_lengths (fun u => dateOf u.created_at) (usersInRange db dateFrom dateTo)

theorem registrations_counts_witness :
    ((registrationsRows emptyDb none none).map RegistrationRow.count).sum
      = (usersInRange emptyDb none none).length :=
  (registrations_counts emptyDb none none).2

/-- C7: for an existing user the detail endpoint returns at most 20
preview records, at most 20 download records and at most 30 login records;
the lists are exactly the most-recent-first record lists of that user, and
every element belongs to that user. -/
theorem userDetail_record_caps (db : DB) (userId : Nat) (info : UserInfoRow)
    (pr : List PreviewRecord) (dr : List DownloadRecord) (lr : List LoginRecord)
    (h : userDetailHandler db userId = .ok info pr dr lr) :
    (pr.length ≤ 20 ∧ dr.length ≤ 20 ∧ lr.length ≤ 30) ∧
    (pr = previewRecords db userId ∧ dr = downloadRecords db userId ∧
     lr = loginRecords db userId) ∧
    (∀ p ∈ pr, ∃ g ∈ userPreviewGens db userId, p = previewRecordOf db g) ∧
    (∀ d ∈ dr, ∃ g ∈ userDownloadGens db userId, d = downloadRecordOf db g) ∧
    (∀ r ∈ lr, ∃ g ∈ userLoginLogs db userId, r = loginRecordOf g) := by
  unfold userDetailHandler at h
  cases hf : db.users.find? (fun u => u.id == userId) with
  | none => rw [hf] at h; cases h
  | some u =>
    rw [hf] at h
    injection h with h1 h2 h3 h4
    subst h2 h3 h4
    refine ⟨⟨?_, ?_, ?_⟩, ⟨rfl, rfl, rfl⟩, ?_, ?_, ?_⟩
    · show (List.map _ (List.take 20 _)).length ≤ 20
      rw [List.length_map, List.length_take]
      exact Nat.min_le_left _ _
    · show (List.map _ (List.take 20 _)).length ≤ 20
      rw [List.length_map, List.length_take]
      exact Nat.min_le_left _ _
    · show (List.map _ (List.take 30 _)).length ≤ 30
      rw [List.length_map, List.length_take]
      exact Nat.min_le_left _ _
    · intro p hp
      obtain ⟨g, hg, rfl⟩ := List.mem_map.mp hp
      exact ⟨g, (mem_sortDesc _ _ _).mp (List.mem_of_mem_take hg), rfl⟩
    · intro d hd
      obtain ⟨g, hg, rfl⟩ := List.mem_map.mp hd
      exact ⟨g, (mem_sortDesc _ _ _).mp (List.mem_of_mem_take hg), rfl⟩
    · intro r hr
      obtain ⟨g, hg, rfl⟩ := List.mem_map.mp hr
      exact ⟨g, (mem_sortDesc _ _ _).mp (List.mem_of_mem_take hg), rfl⟩

theorem length_filter_add_length_filter_le (l : List α) (p q : α → Bool)
    (h : ∀ a ∈ l, ¬(p a = true ∧ q a = true)) :
    (l.filter p).length + (l.filter q).length ≤ l.length := by
  induction l with
  | nil => simp
  | cons a l ih =>
    have ha := h a (List.mem_cons_self a l)
    have ih2 := ih fun x hx => h x (List.mem_cons_of_mem a hx)
    by_cases hp : p a = true
    · have hq : q a = false := by
        cases hqt : q a with
        | false => rfl
        | true => exact absurd ⟨hp, hqt⟩ ha
      simp only [List.filter_cons, hp, hq, if_true, Bool.false_eq_true, if_false,
        List.length_cons]
      omega
    · have hp2 : p a = false := by
        cases hpt : p a with
        | false => rfl
        | true => exact absurd hpt hp
      by_cases hq : q a = true
      · simp only [List.filter_cons, hp2, hq, if_true, Bool.false_eq_true, if_false,
          List.length_cons]
        omega
      · have hq2 : q a = false := by
          cases hqt : q a with
          | false => rfl
          | true => exact absurd hqt hq
        simp only [List.filter_cons, hp2, hq2, Bool.false_eq_true, if_false,
          List.length_cons]
        omega

theorem userDetail_record_caps_witness :
    userDetailHandler singleUserDb 1
      = .ok (userToInfoRow singleUserDb cexUserA) (previewRecords singleUserDb 1)
          (downloadRecords singleUserDb 1) (loginRecords singleUserDb 1) ∧
    ((previewRecords singleUserDb 1).length ≤ 20 ∧
     (downloadRecords singleUserDb 1).length ≤ 20 ∧
     (loginRecords singleUserDb 1).length ≤ 30) :=
  ⟨rfl, (userDetail_record_caps singleUserDb 1 _ _ _ _ rfl).1⟩

/-- C1 (the code contradicts the claim): with neither dateFrom nor dateTo
the GET /logins handler puts nothing between `FROM login_logs` and its
hard-coded `AND login_success = true`, so the statement carries no WHERE
keyword; the query fails and the handler answers the fixed 500 message
instead of a 200 body with the login counts. -/
theorem loginsHandler_no_dates_is_500 (db : DB) :
    loginsHandler db none none = .serverError "服务器内部错误" := rfl

/-- C2 (the code contradicts the claim): with neither dateFrom nor dateTo
the active_users and total_logins queries of GET /overview read `FROM
login_logs AND login_success = true` with no WHERE keyword; the first of
them fails and the handler answers the fixed 500 message instead of a 200
overview. -/
theorem overviewHandler_no_dates_is_500 (db : DB) :
    overviewHandler db none none = .serverError "服务器内部错误" := rfl

/-- C3 counterexample: a generation typed preview that is also marked paid
is counted by both the preview query and the download query of
GET /overview, so with dateFrom = 0 the returned overview has
total_downloads + total_previews = 2 while only one generation row lies in
the range. -/
theorem overview_consistency_counterexample :
    overviewHandler cexOverviewDb (some 0) none
      = .ok { total_users := 0, active_users := 0, total_previews := 1,
              total_downloads := 1, total_logins := 0 } ∧
    ¬((1 : Nat) + 1 ≤ (gensInRange cexOverviewDb (some 0) none).length) := by
  constructor
  · rfl
  · decide

/-- C3 amended: provided no generation row is counted as both a preview
and a download (typed preview while also paid or typed paid), any overview
the handler returns satisfies total_downloads + total_previews ≤ the
number of generation rows whose created_at lies in the range. -/
theorem overview_consistency (db : DB) (dateFrom dateTo : Option Nat) (ov : Overview)
    (hdisj : ∀ g ∈ db.generations, ¬(isPreviewGen g = true ∧ isDownloadGen g = true))
    (h : overviewHandler db dateFrom dateTo = .ok ov) :
    ov.total_downloads + ov.total_previews ≤ (gensInRange db dateFrom dateTo).length := by
  unfold overviewHandler at h
  split at h
  · injection h with hov
    subst hov
    simp only [overviewBody]
    exact length_filter_add_length_filter_le _ _ _
      (fun g hg hpq => hdisj g (List.mem_of_mem_filter hg) ⟨hpq.2, hpq.1⟩)
  · cases h

theorem overview_consistency_witness :
    (∀ g ∈ witOverviewDb.generations, ¬(isPreviewGen g = true ∧ isDownloadGen g = true)) ∧
    ((0 : Nat) + 1 ≤ (gensInRange witOverviewDb (some 0) none).length) :=
  ⟨by decide, overview_consistency witOverviewDb (some 0) none
    { total_users := 0, active_users := 0, total_previews := 1,
      total_downloads := 0, total_logins := 0 } (by decide) rfl⟩

theorem filter_eq_singleton_of_unique [DecidableEq α] (l : List α) (p : α → Bool) (a : α)
    (ha : a ∈ l) (hpa : p a = true) (hcount : l.count a = 1)
    (huniq : ∀ x ∈ l, p x = true → x = a) :
    l.filter p = [a] := by
  induction l with
  | nil => cases ha
  | cons b l ih =>
    by_cases hb : b = a
    · subst hb
      have hbl : b ∉ l := by
        rw [List.count_cons_self] at hcount
        have h0 : l.count b = 0 := by omega
        exact List.count_eq_zero.mp h0
      have hfl : l.filter p = [] := by
        rw [List.filter_eq_nil_iff]
        intro x hx hpx
        exact hbl ((huniq x (List.mem_cons_of_mem b hx) hpx) ▸ hx)
      simp [List.filter_cons, hpa, hfl]
    · have hpb : p b = false := by
        cases hpt : p b with
        | false => rfl
        | true => exact absurd (huniq b (List.mem_cons_self b l) hpt) hb
      have ha2 : a ∈ l := by
        rcases List.mem_cons.mp ha with h1 | h1
        · exact absurd h1.symm hb
        · exact h1
      have hc2 : l.count a = 1 := by
        rw [List.count_cons_of_ne (fun e => hb e.symm)] at hcount
        exact hcount
      simp only [List.filter_cons, hpb, Bool.false_eq_true, if_false]
      exact ih ha2 hc2 (fun x hx hpx => huniq x (List.mem_cons_of_mem b hx) hpx)

/-- C8 counterexample: the search string abc is an exact substring of the
username or email of exactly one of the two users (cexUserA), yet GET
/users with search = abc returns two rows, because ILIKE also matches the
username ABC case-insensitively. -/
theorem search_unique_counterexample :
    (specSubstrMatch "abc" cexUserA = true ∧
     ∀ u ∈ cexSearchDb.users, specSubstrMatch "abc" u = true → u = cexUserA) ∧
    (usersHandler cexSearchDb 1 50 "abc" none none).users
      = [userToListRow cexSearchDb cexUserB, userToListRow cexSearchDb cexUserA] ∧
    (usersHandler cexSearchDb 1 50 "abc" none none).users
      ≠ [userToListRow cexSearchDb cexUserA] := by
  refine ⟨⟨?_, ?_⟩, ?_, ?_⟩
  · rfl
  · decide
  · rfl
  · decide

/-- C8 amended: when the search string contains no LIKE wildcard or
escape character (so the pattern %s% means plain containment) and it
matches — case-insensitively, as ILIKE does — the username or email of
exactly one user row, GET /users with the default page 1 and limit 50 and
no date filter returns exactly that row. -/
theorem usersHandler_unique_search (db : DB) (s : String) (u0 : UserRow)
    (hlit : likeLiteral s = true)
    (hmem : u0 ∈ db.users)
    (hmatch : (ciContains s u0.username || ciContains s u0.email) = true)
    (hcount : db.users.count u0 = 1)
    (huniq : ∀ u ∈ db.users,
      (ciContains s u.username || ciContains s u.email) = true → u = u0) :
    (usersHandler db 1 50 s none none).users = [userToListRow db u0] := by
  have hpred : ∀ u : UserRow, userMatchesRow s none none u
      = (ciContains s u.username || ciContains s u.email) := by
    intro u
    unfold userMatchesRow dateMatch
    rw [ilikeContains_eq_ciContains _ _ hlit, ilikeContains_eq_ciContains _ _ hlit]
    simp
  have hfil : usersFiltered db s none none = [u0] := by
    unfold usersFiltered
    rw [show (userMatchesRow s none none)
        = fun u => (ciContains s u.username || ciContains s u.email)
      from funext hpred]
    exact filter_eq_singleton_of_unique _ _ _ hmem hmatch hcount huniq
  show (((sortDesc UserRow.created_at (usersFiltered db s none none)).drop
      ((1 - 1) * 50)).take 50).map (userToListRow db) = [userToListRow db u0]
  rw [hfil, sortDesc_singleton]
  rfl

theorem usersHandler_unique_search_witness :
    (likeLiteral "abc" = true ∧
     cexUserA ∈ singleUserDb.users ∧
     (ciContains "abc" cexUserA.username || ciContains "abc" cexUserA.email) = true ∧
     singleUserDb.users.count cexUserA = 1) ∧
    (usersHandler singleUserDb 1 50 "abc" none none).users
      = [userToListRow singleUserDb cexUserA] :=
  ⟨⟨by decide, by decide, by decide, by decide⟩,
   usersHandler_unique_search singleUserDb "abc" cexUserA (by decide) (by decide)
     (by decide) (by decide) (by decide)⟩

/-- C10: a login-log row feeds the GET /online-duration aggregates iff its
session_duration is non-null and it passes the optional user and date
filters — its login_success flag is never consulted — whereas the other
login statistics of the router (the /users join and the detail
loginRecords via userLoginLogs, the /logins rows and the overview
active_users and total_logins via loginsFiltered) draw only from rows with
login_success = true. -/
theorem onlineDuration_ignores_login_success :
    (∀ (db : DB) (userId dateFrom dateTo : Option Nat) (r : LoginLogRow),
      r ∈ onlineDurationFiltered db userId dateFrom dateTo ↔
        (r ∈ db.login_logs ∧ r.session_duration.isSome = true ∧
         (∀ i, userId = some i → r.user_id = i) ∧
         dateMatch dateFrom dateTo r.login_time = true)) ∧
    (∀ (db : DB) (uid : Nat) (r : LoginLogRow),
      r ∈ userLoginLogs db uid → r.login_success = true) ∧
    (∀ (db : DB) (dateFrom dateTo : Option Nat) (r : LoginLogRow),
      r ∈ loginsFiltered db dateFrom dateTo → r.login_success = true) := by
  refine ⟨?_, ?_, ?_⟩
  · intro db userId df dt r
    unfold onlineDurationFiltered onlineDurationMatches
    rw [List.mem_filter]
    constructor
    · rintro ⟨hmem, hcond⟩
      simp only [Bool.and_eq_true] at hcond
      obtain ⟨⟨hs, hu⟩, hd⟩ := hcond
      refine ⟨hmem, hs, ?_, hd⟩
      intro i hi
      subst hi
      simpa using hu
    · rintro ⟨hmem, hs, hu, hd⟩
      refine ⟨hmem, ?_⟩
      simp only [Bool.and_eq_true]
      refine ⟨⟨hs, ?_⟩, hd⟩
      cases userId with
      | none => rfl
      | some i => simpa using hu i rfl
  · intro db uid r hr
    unfold userLoginLogs at hr
    rw [List.mem_filter] at hr
    have h2 := hr.2
    simp only [Bool.and_eq_true] at h2
    exact h2.2
  · intro db df dt r hr
    unfold loginsFiltered at hr
    rw [List.mem_filter] at hr
    have h2 := hr.2
    simp only [Bool.and_eq_true] at h2
    exact h2.2

theorem onlineDuration_ignores_login_success_witness :
    failedLoginLog ∈ onlineDurationFiltered failedLoginDb none none none :=
  (onlineDuration_ignores_login_success.1 failedLoginDb none none none failedLoginLog).mpr
    ⟨by decide, by decide, by simp, by decide⟩

theorem usersQueryText_select (dateFrom dateTo : Option Nat) :
    isSelectSql (usersQueryText dateFrom dateTo) = true := by
  unfold usersQueryText
  exact isSelectSql_append _ _ (by decide)

theorem usersCountQueryText_select (dateFrom dateTo : Option Nat) :
    isSelectSql (usersCountQueryText dateFrom dateTo) = true := by
  unfold usersCountQueryText
  exact isSelectSql_append _ _ (by decide)

theorem userInfoQueryText_select : isSelectSql userInfoQueryText = true := by decide

theorem previewRecordsQueryText_select : isSelectSql previewRecordsQueryText = true := by
  decide

theorem downloadRecordsQueryText_select : isSelectSql downloadRecordsQueryText = true := by
  decide

theorem loginRecordsQueryText_select : isSelectSql loginRecordsQueryText = true := by
  decide

theorem registrationsQueryText_select (dateFrom dateTo : Option Nat) :
    isSelectSql (registrationsQueryText dateFrom dateTo) = true := by
  unfold registrationsQueryText
  exact isSelectSql_append _ _ (by decide)

theorem loginsQueryText_select (dateFrom dateTo : Option Nat) :
    isSelectSql (loginsQueryText dateFrom dateTo) = true := by
  unfold loginsQueryText
  exact isSelectSql_append _ _ (by decide)

theorem onlineDurationQueryText_select (userId dateFrom dateTo : Option Nat) :
    isSelectSql (onlineDurationQueryText userId dateFrom dateTo) = true := by
  unfold onlineDurationQueryText
  exact isSelectSql_append _ _ (by decide)

theorem overviewUsersQueryText_select (dateFrom dateTo : Option Nat) :
    isSelectSql (overviewUsersQueryText dateFrom dateTo) = true := by
  unfold overviewUsersQueryText
  exact isSelectSql_append _ _ (by decide)

theorem overviewActiveUsersQueryText_select (dateFrom dateTo : Option Nat) :
    isSelectSql (overviewActiveUsersQueryText dateFrom dateTo) = true := by
  unfold overviewActiveUsersQueryText
  exact isSelectSql_append _ _ (by decide)

theorem overviewPreviewsQueryText_select (dateFrom dateTo : Option Nat) :
    isSelectSql (overviewPreviewsQueryText dateFrom dateTo) = true := by
  unfold overviewPreviewsQueryText
  exact isSelectSql_append _ _ (by decide)

theorem overviewDownloadsQueryText_select (dateFrom dateTo : Option Nat) :
    isSelectSql (overviewDownloadsQueryText dateFrom dateTo) = true := by
  unfold overviewDownloadsQueryText
  exact isSelectSql_append _ _ (by decide)

theorem overviewLoginsQueryText_select (dateFrom dateTo : Option Nat) :
    isSelectSql (overviewLoginsQueryText dateFrom dateTo) = true := by
  unfold overviewLoginsQueryText
  exact isSelectSql_append _ _ (by decide)

/-- C9: every SQL text any of the six handlers can send leads with SELECT:
the router only reads the four tables and mutates nothing (the handlers
are pure functions of the database state in this embedding, and the texts
they send carry no INSERT, UPDATE or DELETE). -/
theorem router_queries_read_only (db : DB) (detailUserId : Nat)
    (userId dateFrom dateTo : Option Nat) :
    ∀ q ∈ routerQueryTexts db detailUserId userId dateFrom dateTo,
      isSelectSql q = true := by
  intro q hq
  have hdet : q ∈ userDetailQueries db detailUserId → isSelectSql q = true := by
    intro hd
    unfold userDetailQueries at hd
    cases hf : db.users.find? (fun u => u.id == detailUserId) with
    | none =>
      rw [hf] at hd
      simp only [List.mem_cons, List.not_mem_nil, or_false] at hd
      subst hd
      exact userInfoQueryText_select
    | some u =>
      rw [hf] at hd
      simp only [List.mem_cons, List.not_mem_nil, or_false] at hd
      rcases hd with rfl | rfl | rfl | rfl
      · exact userInfoQueryText_select
      · exact previewRecordsQueryText_select
      · exact downloadRecordsQueryText_select
      · exact loginRecordsQueryText_select
  unfold routerQueryTexts at hq
  rcases List.mem_append.mp hq with h12 | htail
  · rcases List.mem_append.mp h12 with h1 | hdet2
    · fin_cases h1
      · exact usersQueryText_select _ _
      · exact usersCountQueryText_select _ _
    · exact hdet hdet2
  · fin_cases htail
    · exact registrationsQueryText_select _ _
    · exact loginsQueryText_select _ _
    · exact onlineDurationQueryText_select _ _ _
    · exact overviewUsersQueryText_select _ _
    · exact overviewActiveUsersQueryText_select _ _
    · exact overviewPreviewsQueryText_select _ _
    · exact overviewDownloadsQueryText_select _ _
    · exact overviewLoginsQueryText_select _ _

theorem router_queries_read_only_witness :
    isSelectSql (usersQueryText none none) = true :=
  router_queries_read_only emptyDb 1 none none none (usersQueryText none none)
    (List.mem_append_left _ (List.mem_append_left _ (List.mem_cons_self _ _)))

end UserAnalytics
